import Mathlib

/-!
Verification of the mailer-service repository (src/index.js): a shallow
embedding of the three HTTP routes (`/send-email`, `/preview-email`,
`/emails`), the HTML renderer `generateHTMLEmail`, the S3 object fetcher,
the SendGrid message construction and the EmailLog record, together with
theorems settling the frozen claims about the service.

External services (S3, SendGrid, MongoDB) are modelled as parameters of
the route functions: the blob store is a partial map from keys to objects,
delivery and log-write outcomes are booleans, and the document store is a
list of records.
-/

set_option maxRecDepth 8000

set_option maxHeartbeats 1000000

namespace Mailer

/-! ## Generic string helpers (lists of characters) -/

/-- Boolean test that `need` is a prefix of `hay` (character lists). -/
def isPrefixList : List Char → List Char → Bool
  | [], _ => true
  | _ :: _, [] => false
  | a :: as, b :: bs => a == b && isPrefixList as bs

/-- Boolean test that `need` occurs as a contiguous substring of `hay`. -/
def containsSeq (hay need : List Char) : Bool :=
  match hay with
  | [] => isPrefixList need []
  | c :: rest => isPrefixList need (c :: rest) || containsSeq rest need

/-- Number of positions of `hay` (including the end position) at which
`need` occurs as a prefix of the remaining suffix. -/
def countOcc : List Char → List Char → Nat
  | [], need => if isPrefixList need [] then 1 else 0
  | c :: rest, need =>
      (if isPrefixList need (c :: rest) then 1 else 0) + countOcc rest need

/-- Tail-recursive occurrence counter; the accumulator is forced to a
numeral at every step so that evaluation stays in head position
(evaluation of `countOcc` itself nests too deeply for large documents). -/
def countOccAux : List Char → List Char → Nat → Nat
  | [], need, acc => if isPrefixList need [] then acc + 1 else acc
  | c :: rest, need, acc =>
      match (if isPrefixList need (c :: rest) then acc + 1 else acc : Nat) with
      | 0 => countOccAux rest need 0
      | n + 1 => countOccAux rest need (n + 1)

/-- String-level substring containment. -/
def containsStr (hay need : String) : Bool := containsSeq hay.data need.data

/-- String-level substring occurrence count. -/
def countOccStr (hay need : String) : Nat := countOcc hay.data need.data

/-! ## Decimal rendering of a natural number

JavaScript template literals such as `` `image-${i+1}` `` convert the
number to its decimal numeral.  `natToDec` renders that numeral; it uses
a fuel argument (the number itself suffices) so that it reduces by `rfl`. -/

/-- The decimal digit character for `n < 10`. -/
def decDigit (n : Nat) : Char := Char.ofNat (48 + n)

/-- Digits of `n`, most significant first, given enough fuel (`n < fuel`). -/
def natToDecAux : Nat → Nat → List Char
  | 0, _ => []
  | fuel + 1, n =>
      if n < 10 then [decDigit n]
      else natToDecAux fuel (n / 10) ++ [decDigit (n % 10)]

/-- Decimal numeral of `n`, as produced by JavaScript string interpolation. -/
def natToDec (n : Nat) : String := String.mk (natToDecAux (n + 1) n)

/-! ## base64 encoding (Buffer.toString('base64')) -/

/-- The base64 alphabet. -/
def base64Alphabet : List Char :=
  "ABCDEFGHIJKLMNOPQRSTUVWXYZabcdefghijklmnopqrstuvwxyz0123456789+/".data

/-- The base64 character for a 6-bit group. -/
def base64Char (n : Nat) : Char := base64Alphabet.getD n 'A'

/-- RFC 4648 base64 encoding of a byte list, with `=` padding. -/
def base64Encode : List Nat → List Char
  | [] => []
  | [b1] => [base64Char (b1 / 4), base64Char (b1 % 4 * 16), '=', '=']
  | [b1, b2] =>
      [base64Char (b1 / 4), base64Char (b1 % 4 * 16 + b2 / 16),
       base64Char (b2 % 16 * 4), '=']
  | b1 :: b2 :: b3 :: rest =>
      base64Char (b1 / 4) :: base64Char (b1 % 4 * 16 + b2 / 16) ::
      base64Char (b2 % 16 * 4 + b3 / 64) :: base64Char (b3 % 64) ::
      base64Encode rest

/-- base64 encoding as a string, as `file.content.toString('base64')`. -/
def base64String (bs : List Nat) : String := String.mk (base64Encode bs)

/-! ## Tag stripping: `body.replace(/<[^>]*>/g, '')`

The regex `<[^>]*>` removes, for each `<`, everything up to and including
the first following `>`; a `<` with no later `>` is left in place (the
pattern requires the closing `>`). -/

/-- Drop characters up to and including the first `>`; `none` if there is
no `>` at all. -/
def dropThroughGt : List Char → Option (List Char)
  | [] => none
  | c :: rest => if c = '>' then some rest else dropThroughGt rest

/-- Remove every substring matching `<[^>]*>`, with fuel for termination
(`length + 1` suffices since each step consumes at least one character). -/
def stripTagsFuel : Nat → List Char → List Char
  | 0, l => l
  | _ + 1, [] => []
  | fuel + 1, c :: rest =>
      if c = '<' then
        match dropThroughGt rest with
        | some after => stripTagsFuel fuel after
        | none => c :: rest
      else c :: stripTagsFuel fuel rest

/-- Computes `s.replace(/<[^>]*>/g, '')` from the plain-text branch of the route. -/
def stripTagsStr (s : String) : String :=
  String.mk (stripTagsFuel (s.data.length + 1) s.data)

/-! ## A model of the document-store regex search

`GET /emails` hands the `search` query string to MongoDB as
`{ $regex: search, $options: 'i' }`.  Modelled from the spec: the document
store itself is not part of src/ — per the spec the log store is "queried
via substring/regex match" — so PCRE regex testing is modelled here for
patterns built from literal characters and the `.` metacharacter (any
character except newline); theorems about arbitrary queries restrict to
patterns avoiding the remaining metacharacters, on which this model is
faithful. -/

/-- A regex token of the modelled pattern subset. -/
inductive RegexToken where
  | lit (c : Char)
  | anyChar
deriving DecidableEq

/-- Parse a pattern string: `.` is the any-character metacharacter, every
other character matches literally. -/
def parseRegex (pat : String) : List RegexToken :=
  pat.data.map fun c => if c = '.' then RegexToken.anyChar else RegexToken.lit c

/-- Case-insensitive single-token match (option `i`). -/
def tokenMatches : RegexToken → Char → Bool
  | RegexToken.lit a, c => a.toLower == c.toLower
  | RegexToken.anyChar, c => !(c == '\n')

/-- Match the token list against a prefix of the text. -/
def tokensMatchAt : List RegexToken → List Char → Bool
  | [], _ => true
  | _ :: _, [] => false
  | t :: ts, c :: cs => tokenMatches t c && tokensMatchAt ts cs

/-- Unanchored regex test: the tokens match at some position of the text. -/
def regexFind (ts : List RegexToken) : List Char → Bool
  | [] => tokensMatchAt ts []
  | c :: rest => tokensMatchAt ts (c :: rest) || regexFind ts rest

/-- Evaluates `new RegExp(pat, 'i').test(hay)` for the modelled pattern subset. -/
def regexFindI (pat hay : String) : Bool := regexFind (parseRegex pat) hay.data

/-- Case-insensitive literal substring containment (the spec's reading of
the search contract). -/
def containsCI (hay need : String) : Bool :=
  containsSeq (hay.data.map Char.toLower) (need.data.map Char.toLower)

/-- PCRE metacharacters; a query avoiding them is a literal pattern. -/
def regexMetachars : List Char :=
  ['.', '*', '+', '?', '(', ')', '[', ']', '\x7b', '\x7d', '\\', '^', '$', '|']

/-! ## The HTML renderer `generateHTMLEmail`

The JavaScript function returns one template literal; it is embedded as
the concatenation of its constant segments with the three interpolations
`${subject}` (twice), `${body}` and `${imageHtml}`. -/

/-- One image block of `imageHtml`, for a single content-id. -/
def imageBlock (cid : String) : String :=
  "<div class=\"image-container\"><img src=\"" ++ ("cid:" ++ cid) ++
    "\" alt=\"Embedded Image\" style=\"max-width: 100%;\"></div>"

/-- The `forEach`/`+=` accumulation of image blocks. -/
def imageHtmlFor (cids : List String) : String :=
  cids.foldl (fun acc cid => acc ++ imageBlock cid) ""

/-- Template text before the `<title>` interpolation of `${subject}`. -/
def tplHead : String :=
  "\n    <!DOCTYPE html>\n    <html lang=\"en\">\n    <head>\n      <meta charset=\"UTF-8\">\n      <meta name=\"viewport\" content=\"width=device-width, initial-scale=1.0\">\n      <title>"

/-- Template text between the two `${subject}` interpolations: the closing
`</title>`, the fixed inline stylesheet, and the opening of the header. -/
def tplStyle : String :=
  "</title>\n      <style>\n        body \x7b\n          font-family: Arial, sans-serif;\n          line-height: 1.6;\n          color: #333;\n          max-width: 600px;\n          margin: 0 auto;\n          padding: 20px;\n        \x7d\n        .header \x7b\n          border-bottom: 2px solid #f0f0f0;\n          padding-bottom: 15px;\n          margin-bottom: 20px;\n        \x7d\n        h1 \x7b\n          color: #2c3e50;\n          margin-top: 0;\n        \x7d\n        .content \x7b\n          margin-bottom: 30px;\n        \x7d\n        .image-container \x7b\n          margin: 20px 0;\n        \x7d\n        .footer \x7b\n          border-top: 1px solid #f0f0f0;\n          padding-top: 15px;\n          font-size: 12px;\n          color: #777;\n        \x7d\n      </style>\n    </head>\n    <body>\n      <div class=\"header\">\n        <h1>"

/-- Template text between `${subject}` in the h1 and `${body}`. -/
def tplAfterH1 : String :=
  "</h1>\n      </div>\n      <div class=\"content\">\n        "

/-- Template text between `${body}` and `${imageHtml}`. -/
def tplAfterBody : String := "\n      </div>\n      "

/-- Template text after `${imageHtml}`: the footer and closing tags. -/
def tplFooter : String :=
  "\n      <div class=\"footer\">\n        <p>This email was sent automatically. Please do not reply directly to this message.</p>\n      </div>\n    </body>\n    </html>\n  "

/-- The HTML renderer of src/index.js. -/
def generateHTMLEmail (subject body : String) (embeddedImageCids : List String) : String :=
  let imageHtml := imageHtmlFor embeddedImageCids
  tplHead ++ subject ++ tplStyle ++ subject ++ tplAfterH1 ++ body ++
    tplAfterBody ++ imageHtml ++ tplFooter

/-! ## Data model -/

/-- An object in the blob store: raw bytes and a content type, as returned
by `s3.getObject`. -/
structure S3Object where
  content : List Nat
  contentType : String
deriving DecidableEq

/-- The blob store: a partial map from storage keys to objects; `none`
models a failing fetch (missing key or unreachable store). -/
def S3Store : Type := String → Option S3Object

/-- A single fetch attempt, failing when the store does. -/
def getFileFromS3 (s3 : S3Store) (key : String) : Option S3Object := s3 key

/-- Computes `key.split('/').pop()`: the final path segment of a storage key. -/
def lastSegment (key : String) : String := (key.splitOn "/").getLastD ""

/-- One SendGrid attachment entry pushed onto `msg.attachments`. -/
structure MsgAttachment where
  content : String
  filename : String
  type : String
  disposition : String
  content_id : Option String
deriving DecidableEq

/-- The message handed to `sgMail.send` (the `from` field of the source is
`fromAddr` here, `from` being reserved). -/
structure EmailMsg where
  «to» : String
  fromAddr : String
  subject : String
  html : String
  text : String
  attachments : List MsgAttachment
deriving DecidableEq

/-- One entry of the `embeddedImages` list of an EmailLog document. -/
structure ImageLogEntry where
  cid : String
  filename : String
  s3Key : String
  contentType : String
  size : Nat
deriving DecidableEq

/-- One entry of the `attachments` list of an EmailLog document. -/
structure AttachmentLogEntry where
  filename : String
  s3Key : String
  contentType : String
  size : Nat
deriving DecidableEq

/-- An EmailLog document; the timestamp is assigned at write time. -/
structure EmailLogRecord where
  «to» : String
  subject : String
  body : String
  htmlBody : String
  embeddedImages : List ImageLogEntry
  attachments : List AttachmentLogEntry
  timestamp : Nat
deriving DecidableEq

/-! ## The `/send-email` route -/

/-- The JSON body of a `POST /send-email` request; absent fields are
`none` (JavaScript `undefined`). -/
structure SendEmailRequest where
  «to» : Option String
  subject : Option String
  body : Option String
  attachmentKeys : Option (List String)
  embeddedImageKeys : Option (List String)
  useHtmlTemplate : Option Bool
deriving DecidableEq

/-- JavaScript falsiness of an optional string field: absent or empty. -/
def falsyStr : Option String → Bool
  | none => true
  | some s => s.isEmpty

/-- The observable outcome of one `/send-email` request: HTTP status and
response fields, the keys for which a fetch was attempted, the message
passed to the delivery gateway (if it was called at all), whether delivery
succeeded, whether a log write was attempted, and the record persisted. -/
structure SendOutcome where
  status : Nat
  message : String
  htmlGenerated : Option Bool
  fetched : List String
  gatewayCalled : Option EmailMsg
  delivered : Bool
  logCallMade : Bool
  logCreated : Option EmailLogRecord
deriving DecidableEq

/-- The embedded-image loop: for each key, in order, fetch the object,
derive the filename, assign `contentId = "image-" + (i+1)`, and accumulate
the inline attachment, the content-id and the log entry.  Returns the keys
for which a fetch was attempted and `none` on the first failure, which
aborts the whole request. -/
def processEmbeddedFrom (s3 : S3Store) (i : Nat) :
    List String → List String × Option (List MsgAttachment × List String × List ImageLogEntry)
  | [] => ([], some ([], [], []))
  | key :: rest =>
      match getFileFromS3 s3 key with
      | none => ([key], none)
      | some file =>
          let filename := lastSegment key
          let cid := "image-" ++ natToDec (i + 1)
          let att : MsgAttachment :=
            { content := base64String file.content, filename := filename,
              type := file.contentType, disposition := "inline",
              content_id := some cid }
          let entry : ImageLogEntry :=
            { cid := cid, filename := filename, s3Key := key,
              contentType := file.contentType, size := file.content.length }
          match processEmbeddedFrom s3 (i + 1) rest with
          | (tried, none) => (key :: tried, none)
          | (tried, some (atts, cids, logs)) =>
              (key :: tried, some (att :: atts, cid :: cids, entry :: logs))

/-- The attachment loop: like the embedded-image loop but with
`disposition: 'attachment'` and no content-id. -/
def processAttachments (s3 : S3Store) :
    List String → List String × Option (List MsgAttachment × List AttachmentLogEntry)
  | [] => ([], some ([], []))
  | key :: rest =>
      match getFileFromS3 s3 key with
      | none => ([key], none)
      | some file =>
          let filename := lastSegment key
          let att : MsgAttachment :=
            { content := base64String file.content, filename := filename,
              type := file.contentType, disposition := "attachment",
              content_id := none }
          let entry : AttachmentLogEntry :=
            { filename := filename, s3Key := key,
              contentType := file.contentType, size := file.content.length }
          match processAttachments s3 rest with
          | (tried, none) => (key :: tried, none)
          | (tried, some (atts, logs)) =>
              (key :: tried, some (att :: atts, entry :: logs))

/-- A 500 outcome of `/send-email` (the `catch` branch). -/
def failOutcome (fetched : List String) (gatewayCalled : Option EmailMsg)
    (delivered : Bool) (logCallMade : Bool) : SendOutcome :=
  { status := 500, message := "Failed to send email", htmlGenerated := none,
    fetched := fetched, gatewayCalled := gatewayCalled,
    delivered := delivered, logCallMade := logCallMade, logCreated := none }

/-- The `POST /send-email` handler.  `cfgFrom` is the configured sender
address, `sendOk` and `logOk` are the outcomes of the external delivery
call and of the log write, and `now` the timestamp the store assigns. -/
def sendEmailRoute (cfgFrom : String) (s3 : S3Store) (sendOk logOk : Bool)
    (now : Nat) (req : SendEmailRequest) : SendOutcome :=
  if falsyStr req.«to» || falsyStr req.subject || falsyStr req.body then
    { status := 400, message := "Missing required fields: to, subject, body",
      htmlGenerated := none, fetched := [], gatewayCalled := none,
      delivered := false, logCallMade := false, logCreated := none }
  else
    let toAddr := req.«to».getD ""
    let subject := req.subject.getD ""
    let body := req.body.getD ""
    let useHtml := req.useHtmlTemplate.getD true
    match processEmbeddedFrom s3 0 (req.embeddedImageKeys.getD []) with
    | (tried1, none) => failOutcome tried1 none false false
    | (tried1, some (imgAtts, cids, imgLogs)) =>
        let plainTextContent := body
        let htmlPart := if useHtml then generateHTMLEmail subject body cids else body
        let textPart := if useHtml then plainTextContent else stripTagsStr body
        match processAttachments s3 (req.attachmentKeys.getD []) with
        | (tried2, none) => failOutcome (tried1 ++ tried2) none false false
        | (tried2, some (atts, attLogs)) =>
            let msg : EmailMsg :=
              { «to» := toAddr, fromAddr := cfgFrom, subject := subject,
                html := htmlPart, text := textPart,
                attachments := imgAtts ++ atts }
            if sendOk then
              if logOk then
                let logRec : EmailLogRecord :=
                  { «to» := toAddr, subject := subject, body := plainTextContent,
                    htmlBody := msg.html, embeddedImages := imgLogs,
                    attachments := attLogs, timestamp := now }
                { status := 200, message := "Email sent successfully",
                  htmlGenerated := some useHtml, fetched := tried1 ++ tried2,
                  gatewayCalled := some msg, delivered := true,
                  logCallMade := true, logCreated := some logRec }
              else failOutcome (tried1 ++ tried2) (some msg) true true
            else failOutcome (tried1 ++ tried2) (some msg) false false

/-! ## The `/preview-email` route -/

/-- The JSON body of a `POST /preview-email` request. -/
structure PreviewRequest where
  subject : Option String
  body : Option String
  embeddedImageCount : Option Nat
deriving DecidableEq

/-- The observable outcome of one `/preview-email` request. -/
structure PreviewOutcome where
  status : Nat
  html : Option String
deriving DecidableEq

/-- The `POST /preview-email` handler: validates `subject` and `body`,
builds `embeddedImageCount || 0` dummy content-ids `preview-image-(i+1)`
and renders the same template, without storage, delivery or logging. -/
def previewEmailRoute (req : PreviewRequest) : PreviewOutcome :=
  if falsyStr req.subject || falsyStr req.body then
    { status := 400, html := none }
  else
    let n := req.embeddedImageCount.getD 0
    let dummyCids := (List.range n).map fun i => "preview-image-" ++ natToDec (i + 1)
    { status := 200,
      html := some (generateHTMLEmail (req.subject.getD "") (req.body.getD "") dummyCids) }

/-! ## The `GET /emails` route -/

/-- Descending-timestamp order used by `.sort({ timestamp: -1 })`. -/
def tsGe (a b : EmailLogRecord) : Prop := b.timestamp ≤ a.timestamp

instance : DecidableRel tsGe := fun a b => Nat.decLe b.timestamp a.timestamp

instance : IsTotal EmailLogRecord tsGe :=
  ⟨fun a b => show b.timestamp ≤ a.timestamp ∨ a.timestamp ≤ b.timestamp from
    Nat.le_total b.timestamp a.timestamp⟩

instance : IsTrans EmailLogRecord tsGe :=
  ⟨fun a b c hab hbc => show c.timestamp ≤ a.timestamp from
    Nat.le_trans (show c.timestamp ≤ b.timestamp from hbc)
      (show b.timestamp ≤ a.timestamp from hab)⟩

/-- The `$or` filter over `to`, `subject` and `body` with
`{ $regex: search, $options: 'i' }` on each field. -/
def fieldMatches (q : String) (r : EmailLogRecord) : Bool :=
  regexFindI q r.«to» || regexFindI q r.subject || regexFindI q r.body

/-- The `GET /emails` handler over the stored documents: an absent or
empty (falsy) `search` parameter returns everything, otherwise the
documents are filtered by the regex `$or`; results are sorted by
timestamp descending. -/
def emailsRoute (db : List EmailLogRecord) (search : Option String) :
    List EmailLogRecord :=
  let filtered :=
    match search with
    | none => db
    | some q => if q.isEmpty then db else db.filter (fieldMatches q)
  List.insertionSort tsGe filtered

/-! ## Derived definitions used by the verification -/

/-- The numeric value of a decimal digit string (left inverse of
`natToDecAux`). -/
def decValue (l : List Char) : Nat :=
  l.foldl (fun acc c => 10 * acc + (c.toNat - 48)) 0

/-- The 400 outcome of a failed validation. -/
def badRequestOutcome : SendOutcome :=
  { status := 400, message := "Missing required fields: to, subject, body",
    htmlGenerated := none, fetched := [], gatewayCalled := none,
    delivered := false, logCallMade := false, logCreated := none }

/-- The message a successful compose hands to the delivery gateway. -/
def builtMsg (cfgFrom : String) (req : SendEmailRequest) (cids : List String)
    (imgAtts atts : List MsgAttachment) : EmailMsg :=
  { «to» := req.«to».getD "", fromAddr := cfgFrom,
    subject := req.subject.getD "",
    html := if req.useHtmlTemplate.getD true
      then generateHTMLEmail (req.subject.getD "") (req.body.getD "") cids
      else req.body.getD "",
    text := if req.useHtmlTemplate.getD true
      then req.body.getD ""
      else stripTagsStr (req.body.getD ""),
    attachments := imgAtts ++ atts }

/-- The record a successful send persists. -/
def builtLog (msg : EmailMsg) (req : SendEmailRequest) (il : List ImageLogEntry)
    (al : List AttachmentLogEntry) (now : Nat) : EmailLogRecord :=
  { «to» := req.«to».getD "", subject := req.subject.getD "",
    body := req.body.getD "", htmlBody := msg.html,
    embeddedImages := il, attachments := al, timestamp := now }

/-! ## Concrete example inputs -/

/-- A blob store on which every fetch succeeds. -/
def s3All : S3Store := fun _ => some { content := [1, 2, 3], contentType := "image/png" }

/-- A blob store on which every fetch fails. -/
def s3Empty : S3Store := fun _ => none

/-- A plain-text (`useHtmlTemplate = false`) request whose body carries markup. -/
def plainReq : SendEmailRequest :=
  { «to» := some "a@b.com", subject := some "s", body := some "<b>x</b>",
    attachmentKeys := none, embeddedImageKeys := none,
    useHtmlTemplate := some false }

/-- The outcome of sending `plainReq` with delivery and logging succeeding. -/
def plainOut : SendOutcome := sendEmailRoute "noreply@example.com" s3Empty true true 0 plainReq

/-- The simple example request of the spec: `to`, `subject`, `body` only. -/
def simpleReq : SendEmailRequest :=
  { «to» := some "a@b.com", subject := some "Hi", body := some "Hello",
    attachmentKeys := none, embeddedImageKeys := none, useHtmlTemplate := none }

/-- The outcome of sending `simpleReq` with everything succeeding. -/
def simpleOut : SendOutcome := sendEmailRoute "noreply@example.com" s3All true true 0 simpleReq

/-- A request with ten embedded-image keys. -/
def tenImgReq : SendEmailRequest :=
  { «to» := some "a@b.com", subject := some "Hi", body := some "Hello",
    attachmentKeys := none,
    embeddedImageKeys := some ["k1", "k2", "k3", "k4", "k5", "k6", "k7", "k8", "k9", "k10"],
    useHtmlTemplate := none }

/-- The outcome of sending `tenImgReq` with everything succeeding. -/
def tenImgOut : SendOutcome := sendEmailRoute "noreply@example.com" s3All true true 0 tenImgReq

/-- A request with two embedded-image keys. -/
def twoImgReq : SendEmailRequest :=
  { «to» := some "a@b.com", subject := some "Hi", body := some "Hello",
    attachmentKeys := none, embeddedImageKeys := some ["a.png", "b.png"],
    useHtmlTemplate := none }

/-- A stored record whose fields contain no `.` character. -/
def dotFreeRec : EmailLogRecord :=
  { «to» := "ab", subject := "x", body := "y", htmlBody := "",
    embeddedImages := [], attachments := [], timestamp := 0 }

/-- A stored record used to witness the search contract. -/
def searchRec : EmailLogRecord :=
  { «to» := "User@Example.com", subject := "Greetings", body := "hello there",
    htmlBody := "", embeddedImages := [], attachments := [], timestamp := 3 }

/-- The HTML of the message handed to the gateway (empty if none was). -/
def sentHtml (o : SendOutcome) : String :=
  (o.gatewayCalled.map (fun m => m.html)).getD ""

/-- The preview outcome for the spec example (`embeddedImageCount = 2`). -/
def previewTwoOut : PreviewOutcome :=
  previewEmailRoute { subject := some "Hi", body := some "Hello", embeddedImageCount := some 2 }

/-! ## Helper lemmas: substrings -/

theorem isPrefixList_self_append (l t : List Char) : isPrefixList l (l ++ t) = true := by
  induction l with
  | nil => rfl
  | cons a as ih => simp [isPrefixList, ih]

theorem containsSeq_nil_need (hay : List Char) : containsSeq hay [] = true := by
  cases hay with
  | nil => rfl
  | cons c rest => simp [containsSeq, isPrefixList]

theorem containsSeq_of_append (a need b : List Char) :
    containsSeq (a ++ (need ++ b)) need = true := by
  induction a with
  | nil =>
      cases need with
      | nil => simpa using containsSeq_nil_need b
      | cons n ns =>
          simp only [List.nil_append, containsSeq]
          have : isPrefixList (n :: ns) ((n :: ns) ++ b) = true :=
            isPrefixList_self_append (n :: ns) b
          simp only [List.cons_append] at this
          simp [this]
  | cons c cs ih => simp [containsSeq, ih]

theorem strData_append (a b : String) : (a ++ b).data = a.data ++ b.data :=
  String.data_append a b

theorem containsStr_of_split (hay pre mid post : String)
    (h : hay = pre ++ (mid ++ post)) : containsStr hay mid = true := by
  subst h
  unfold containsStr
  rw [strData_append, strData_append]
  exact containsSeq_of_append pre.data mid.data post.data

theorem countOccAux_eq : ∀ (hay need : List Char) (acc : Nat),
    countOccAux hay need acc = acc + countOcc hay need := by
  intro hay
  induction hay with
  | nil =>
      intro need acc
      simp only [countOccAux, countOcc]
      by_cases h : isPrefixList need [] = true
      · rw [if_pos h, if_pos h]
      · rw [if_neg h, if_neg h]; omega
  | cons c rest ih =>
      intro need acc
      simp only [countOccAux, countOcc]
      by_cases h : isPrefixList need (c :: rest) = true
      · rw [if_pos h, if_pos h]
        split <;> rw [ih] <;> omega
      · rw [if_neg h, if_neg h]
        split <;> rw [ih] <;> omega

theorem countOccStr_eval (hay need : String) (n : Nat)
    (h : countOccAux hay.data need.data 0 = n) : countOccStr hay need = n := by
  unfold countOccStr
  rw [countOccAux_eq] at h
  omega

/-! ## Helper lemmas: decimal numerals are injective -/

theorem decDigit_toNat (n : Nat) (h : n < 10) : (decDigit n).toNat = 48 + n := by
  interval_cases n <;> decide

theorem decValue_append_digit (l : List Char) (d : Char) :
    decValue (l ++ [d]) = 10 * decValue l + (d.toNat - 48) := by
  unfold decValue
  rw [List.foldl_append]
  rfl

theorem natToDecAux_val : ∀ (fuel n : Nat), n < fuel →
    decValue (natToDecAux fuel n) = n := by
  intro fuel
  induction fuel with
  | zero => intro n h; omega
  | succ fuel ih =>
      intro n h
      by_cases h10 : n < 10
      · have hd := decDigit_toNat n h10
        simp [natToDecAux, h10, decValue, hd]
      · have hpos : 0 < n := by omega
        have hlt : n / 10 < n := Nat.div_lt_self hpos (by omega)
        have hfuel : n / 10 < fuel := by omega
        have hmod : n % 10 < 10 := Nat.mod_lt _ (by omega)
        have hd := decDigit_toNat (n % 10) hmod
        have hdm := Nat.div_add_mod n 10
        simp only [natToDecAux, h10, if_false]
        rw [decValue_append_digit, ih (n / 10) hfuel, hd]
        omega

theorem natToDec_inj : ∀ (a b : Nat), natToDec a = natToDec b → a = b := by
  intro a b h
  unfold natToDec at h
  injection h with h
  have ha := natToDecAux_val (a + 1) a (by omega)
  have hb := natToDecAux_val (b + 1) b (by omega)
  rw [h] at ha
  omega

theorem image_cid_inj : ∀ (a b : Nat),
    "image-" ++ natToDec a = "image-" ++ natToDec b → a = b := by
  intro a b h
  apply natToDec_inj
  have hd : ("image-" ++ natToDec a).data = ("image-" ++ natToDec b).data :=
    congrArg String.data h
  rw [strData_append, strData_append] at hd
  have := List.append_cancel_left hd
  cases hna : natToDec a with
  | mk la =>
      cases hnb : natToDec b with
      | mk lb =>
          rw [hna, hnb] at this
          exact congrArg String.mk this

/-! ## Helper lemmas: literal patterns and the regex model -/

theorem tokensMatchAt_lit : ∀ (need hay : List Char),
    tokensMatchAt (need.map RegexToken.lit) hay =
      isPrefixList (need.map Char.toLower) (hay.map Char.toLower) := by
  intro need
  induction need with
  | nil => intro hay; rfl
  | cons a as ih =>
      intro hay
      cases hay with
      | nil => rfl
      | cons c cs => simp [tokensMatchAt, tokenMatches, isPrefixList, ih cs]

theorem regexFind_lit : ∀ (hay need : List Char),
    regexFind (need.map RegexToken.lit) hay =
      containsSeq (hay.map Char.toLower) (need.map Char.toLower) := by
  intro hay
  induction hay with
  | nil => intro need; simp [regexFind, containsSeq, tokensMatchAt_lit]
  | cons c cs ih =>
      intro need
      simp [regexFind, containsSeq, tokensMatchAt_lit, ih need]

theorem parseRegex_of_noMeta (q : String) (h : ∀ c ∈ q.data, c ∉ regexMetachars) :
    parseRegex q = q.data.map RegexToken.lit := by
  unfold parseRegex
  apply List.map_congr_left
  intro c hc
  have hdot : c ≠ '.' := by
    intro he
    exact h c hc (by rw [he]; decide)
  simp [hdot]

theorem regexFindI_eq_containsCI (q s : String)
    (h : ∀ c ∈ q.data, c ∉ regexMetachars) :
    regexFindI q s = containsCI s q := by
  unfold regexFindI containsCI
  rw [parseRegex_of_noMeta q h, regexFind_lit]

/-! ## Helper lemmas: the fetch loops -/

theorem processEmbeddedFrom_none (s3 : S3Store) :
    ∀ (keys : List String) (i : Nat), (∃ k ∈ keys, s3 k = none) →
      (processEmbeddedFrom s3 i keys).2 = none := by
  intro keys
  induction keys with
  | nil => intro i h; rcases h with ⟨k, hk, _⟩; simp at hk
  | cons key rest ih =>
      intro i h
      rcases h with ⟨k, hk, hnone⟩
      cases hs : getFileFromS3 s3 key with
      | none => simp [processEmbeddedFrom, hs]
      | some file =>
          have hkrest : k ∈ rest := by
            rcases List.mem_cons.mp hk with h1 | h2
            · subst h1
              rw [show getFileFromS3 s3 k = s3 k from rfl, hnone] at hs
              cases hs
            · exact h2
          rcases hE : processEmbeddedFrom s3 (i + 1) rest with ⟨t, o⟩
          have ho : o = none := by
            have hr := ih (i + 1) ⟨k, hkrest, hnone⟩
            rw [hE] at hr
            exact hr
          subst ho
          simp [processEmbeddedFrom, hs, hE]

theorem processEmbeddedFrom_some (s3 : S3Store) :
    ∀ (keys : List String) (i : Nat), (∀ k ∈ keys, (s3 k).isSome = true) →
      ((processEmbeddedFrom s3 i keys).2).isSome = true := by
  intro keys
  induction keys with
  | nil => intro i _; rfl
  | cons key rest ih =>
      intro i h
      have hkey := h key (List.mem_cons_self key rest)
      cases hs : s3 key with
      | none => rw [hs] at hkey; simp at hkey
      | some file =>
          have hrest : ∀ k ∈ rest, (s3 k).isSome = true :=
            fun k hk => h k (List.mem_cons_of_mem _ hk)
          have hv := ih (i + 1) hrest
          rcases hE : processEmbeddedFrom s3 (i + 1) rest with ⟨t, o⟩
          rw [hE] at hv
          simp only [Option.isSome_iff_exists] at hv
          rcases hv with ⟨v, hv⟩
          subst hv
          rcases v with ⟨atts, cids, logs⟩
          simp only [processEmbeddedFrom, getFileFromS3, hs, hE]
          rfl

theorem processAttachments_none (s3 : S3Store) :
    ∀ (keys : List String), (∃ k ∈ keys, s3 k = none) →
      (processAttachments s3 keys).2 = none := by
  intro keys
  induction keys with
  | nil => intro h; rcases h with ⟨k, hk, _⟩; simp at hk
  | cons key rest ih =>
      intro h
      rcases h with ⟨k, hk, hnone⟩
      cases hs : getFileFromS3 s3 key with
      | none => simp [processAttachments, hs]
      | some file =>
          have hkrest : k ∈ rest := by
            rcases List.mem_cons.mp hk with h1 | h2
            · subst h1
              rw [show getFileFromS3 s3 k = s3 k from rfl, hnone] at hs
              cases hs
            · exact h2
          rcases hE : processAttachments s3 rest with ⟨t, o⟩
          have ho : o = none := by
            have hr := ih ⟨k, hkrest, hnone⟩
            rw [hE] at hr
            exact hr
          subst ho
          simp [processAttachments, hs, hE]

theorem processAttachments_some (s3 : S3Store) :
    ∀ (keys : List String), (∀ k ∈ keys, (s3 k).isSome = true) →
      ((processAttachments s3 keys).2).isSome = true := by
  intro keys
  induction keys with
  | nil => intro _; rfl
  | cons key rest ih =>
      intro h
      have hkey := h key (List.mem_cons_self key rest)
      cases hs : s3 key with
      | none => rw [hs] at hkey; simp at hkey
      | some file =>
          have hrest : ∀ k ∈ rest, (s3 k).isSome = true :=
            fun k hk => h k (List.mem_cons_of_mem _ hk)
          have hv := ih hrest
          rcases hE : processAttachments s3 rest with ⟨t, o⟩
          rw [hE] at hv
          simp only [Option.isSome_iff_exists] at hv
          rcases hv with ⟨v, hv⟩
          subst hv
          rcases v with ⟨atts, logs⟩
          simp only [processAttachments, getFileFromS3, hs, hE]
          rfl

theorem processEmbeddedFrom_cids (s3 : S3Store) :
    ∀ (keys : List String) (i : Nat) (t : List String) (ia : List MsgAttachment)
      (cids : List String) (il : List ImageLogEntry),
      processEmbeddedFrom s3 i keys = (t, some (ia, cids, il)) →
      cids = (List.range keys.length).map (fun j => "image-" ++ natToDec (i + j + 1)) ∧
      il.map (fun e => e.cid) = cids := by
  intro keys
  induction keys with
  | nil =>
      intro i t ia cids il h
      simp [processEmbeddedFrom] at h
      rcases h with ⟨_, h2, h3, h4⟩
      subst h2; subst h3; subst h4
      simp
  | cons key rest ih =>
      intro i t ia cids il h
      cases hs : getFileFromS3 s3 key with
      | none => simp [processEmbeddedFrom, hs] at h
      | some file =>
          rcases hE : processEmbeddedFrom s3 (i + 1) rest with ⟨t', o'⟩
          cases o' with
          | none => simp [processEmbeddedFrom, hs, hE] at h
          | some v =>
              rcases v with ⟨atts, cs, ls⟩
              have hIH := ih (i + 1) t' atts cs ls hE
              simp [processEmbeddedFrom, hs, hE] at h
              rcases h with ⟨_, _, h3, h4⟩
              subst h3; subst h4
              constructor
              · rw [List.length_cons, List.range_succ_eq_map, List.map_cons,
                  List.map_map]
                have hhead : ("image-" ++ natToDec (i + 0 + 1)) =
                    "image-" ++ natToDec (i + 1) := by norm_num
                rw [hhead]
                have htail :
                    (List.range rest.length).map
                        ((fun j => "image-" ++ natToDec (i + j + 1)) ∘ Nat.succ) =
                      (List.range rest.length).map
                        (fun j => "image-" ++ natToDec (i + 1 + j + 1)) := by
                  apply List.map_congr_left
                  intro j _
                  show "image-" ++ natToDec (i + (j + 1) + 1) =
                    "image-" ++ natToDec (i + 1 + j + 1)
                  have : i + (j + 1) + 1 = i + 1 + j + 1 := by omega
                  rw [this]
                rw [htail, ← hIH.1]
              · simp [hIH.2]

/-! ## Helper lemmas: image blocks inside the rendered document -/

theorem imageHtmlFor_shift : ∀ (l : List String) (a : String),
    l.foldl (fun acc cid => acc ++ imageBlock cid) a = a ++ imageHtmlFor l := by
  intro l
  induction l with
  | nil => intro a; simp [imageHtmlFor, String.append_empty]
  | cons c cs ih =>
      intro a
      rw [List.foldl_cons, ih (a ++ imageBlock c)]
      unfold imageHtmlFor
      rw [List.foldl_cons, ih ("" ++ imageBlock c), String.empty_append,
        String.append_assoc]
      rfl

theorem imageHtmlFor_split (cids : List String) (c : String) (h : c ∈ cids) :
    ∃ pre post, imageHtmlFor cids = pre ++ (imageBlock c ++ post) := by
  rcases List.append_of_mem h with ⟨s, t, rfl⟩
  refine ⟨imageHtmlFor s, imageHtmlFor t, ?_⟩
  unfold imageHtmlFor
  rw [List.foldl_append, List.foldl_cons,
    imageHtmlFor_shift t (List.foldl (fun acc cid => acc ++ imageBlock cid) "" s ++ imageBlock c),
    String.append_assoc]
  rfl

theorem generateHTMLEmail_contains_block (subject body : String)
    (cids : List String) (c : String) (h : c ∈ cids) :
    containsStr (generateHTMLEmail subject body cids) (imageBlock c) = true := by
  rcases imageHtmlFor_split cids c h with ⟨pre, post, hsplit⟩
  apply containsStr_of_split _
    (tplHead ++ subject ++ tplStyle ++ subject ++ tplAfterH1 ++ body ++
      tplAfterBody ++ pre)
    (imageBlock c) (post ++ tplFooter)
  unfold generateHTMLEmail
  rw [hsplit]
  simp [String.append_assoc]

/-! ## Helper lemmas: the shape of `/send-email` outcomes -/

theorem sendEmailRoute_badReq (cfgFrom : String) (s3 : S3Store)
    (sendOk logOk : Bool) (now : Nat) (req : SendEmailRequest)
    (hv : (falsyStr req.«to» || falsyStr req.subject || falsyStr req.body) = true) :
    sendEmailRoute cfgFrom s3 sendOk logOk now req = badRequestOutcome := by
  simp [sendEmailRoute, hv, badRequestOutcome]

theorem sendEmailRoute_embFail (cfgFrom : String) (s3 : S3Store)
    (sendOk logOk : Bool) (now : Nat) (req : SendEmailRequest)
    (t1 : List String)
    (hv : (falsyStr req.«to» || falsyStr req.subject || falsyStr req.body) = false)
    (hE : processEmbeddedFrom s3 0 (req.embeddedImageKeys.getD []) = (t1, none)) :
    sendEmailRoute cfgFrom s3 sendOk logOk now req =
      failOutcome t1 none false false := by
  simp [sendEmailRoute, hv, hE]

theorem sendEmailRoute_attFail (cfgFrom : String) (s3 : S3Store)
    (sendOk logOk : Bool) (now : Nat) (req : SendEmailRequest)
    (t1 t2 : List String) (ia : List MsgAttachment) (cids : List String)
    (il : List ImageLogEntry)
    (hv : (falsyStr req.«to» || falsyStr req.subject || falsyStr req.body) = false)
    (hE : processEmbeddedFrom s3 0 (req.embeddedImageKeys.getD []) =
      (t1, some (ia, cids, il)))
    (hA : processAttachments s3 (req.attachmentKeys.getD []) = (t2, none)) :
    sendEmailRoute cfgFrom s3 sendOk logOk now req =
      failOutcome (t1 ++ t2) none false false := by
  simp [sendEmailRoute, hv, hE, hA]

theorem sendEmailRoute_sendFail (cfgFrom : String) (s3 : S3Store)
    (logOk : Bool) (now : Nat) (req : SendEmailRequest)
    (t1 t2 : List String) (ia aa : List MsgAttachment) (cids : List String)
    (il : List ImageLogEntry) (al : List AttachmentLogEntry)
    (hv : (falsyStr req.«to» || falsyStr req.subject || falsyStr req.body) = false)
    (hE : processEmbeddedFrom s3 0 (req.embeddedImageKeys.getD []) =
      (t1, some (ia, cids, il)))
    (hA : processAttachments s3 (req.attachmentKeys.getD []) = (t2, some (aa, al))) :
    sendEmailRoute cfgFrom s3 false logOk now req =
      failOutcome (t1 ++ t2) (some (builtMsg cfgFrom req cids ia aa)) false false := by
  simp [sendEmailRoute, hv, hE, hA, builtMsg]

theorem sendEmailRoute_logFail (cfgFrom : String) (s3 : S3Store)
    (now : Nat) (req : SendEmailRequest)
    (t1 t2 : List String) (ia aa : List MsgAttachment) (cids : List String)
    (il : List ImageLogEntry) (al : List AttachmentLogEntry)
    (hv : (falsyStr req.«to» || falsyStr req.subject || falsyStr req.body) = false)
    (hE : processEmbeddedFrom s3 0 (req.embeddedImageKeys.getD []) =
      (t1, some (ia, cids, il)))
    (hA : processAttachments s3 (req.attachmentKeys.getD []) = (t2, some (aa, al))) :
    sendEmailRoute cfgFrom s3 true false now req =
      failOutcome (t1 ++ t2) (some (builtMsg cfgFrom req cids ia aa)) true true := by
  simp [sendEmailRoute, hv, hE, hA, builtMsg]

theorem sendEmailRoute_success (cfgFrom : String) (s3 : S3Store)
    (now : Nat) (req : SendEmailRequest)
    (t1 t2 : List String) (ia aa : List MsgAttachment) (cids : List String)
    (il : List ImageLogEntry) (al : List AttachmentLogEntry)
    (hv : (falsyStr req.«to» || falsyStr req.subject || falsyStr req.body) = false)
    (hE : processEmbeddedFrom s3 0 (req.embeddedImageKeys.getD []) =
      (t1, some (ia, cids, il)))
    (hA : processAttachments s3 (req.attachmentKeys.getD []) = (t2, some (aa, al))) :
    sendEmailRoute cfgFrom s3 true true now req =
      { status := 200, message := "Email sent successfully",
        htmlGenerated := some (req.useHtmlTemplate.getD true),
        fetched := t1 ++ t2,
        gatewayCalled := some (builtMsg cfgFrom req cids ia aa),
        delivered := true, logCallMade := true,
        logCreated :=
          some (builtLog (builtMsg cfgFrom req cids ia aa) req il al now) } := by
  simp [sendEmailRoute, hv, hE, hA, builtMsg, builtLog]

theorem sendEmailRoute_success_shape (cfgFrom : String) (s3 : S3Store)
    (sendOk logOk : Bool) (now : Nat) (req : SendEmailRequest)
    (h : (sendEmailRoute cfgFrom s3 sendOk logOk now req).status = 200) :
    (falsyStr req.«to» || falsyStr req.subject || falsyStr req.body) = false ∧
    sendOk = true ∧ logOk = true ∧
    ∃ t1 ia cids il t2 aa al,
      processEmbeddedFrom s3 0 (req.embeddedImageKeys.getD []) =
        (t1, some (ia, cids, il)) ∧
      processAttachments s3 (req.attachmentKeys.getD []) = (t2, some (aa, al)) ∧
      sendEmailRoute cfgFrom s3 sendOk logOk now req =
        { status := 200, message := "Email sent successfully",
          htmlGenerated := some (req.useHtmlTemplate.getD true),
          fetched := t1 ++ t2,
          gatewayCalled := some (builtMsg cfgFrom req cids ia aa),
          delivered := true, logCallMade := true,
          logCreated :=
            some (builtLog (builtMsg cfgFrom req cids ia aa) req il al now) } := by
  cases hv : (falsyStr req.«to» || falsyStr req.subject || falsyStr req.body) with
  | true => rw [sendEmailRoute_badReq cfgFrom s3 sendOk logOk now req hv] at h; simp [badRequestOutcome] at h
  | false =>
      rcases hE : processEmbeddedFrom s3 0 (req.embeddedImageKeys.getD []) with ⟨t1, o1⟩
      cases o1 with
      | none =>
          rw [sendEmailRoute_embFail cfgFrom s3 sendOk logOk now req t1 hv hE] at h
          simp [failOutcome] at h
      | some v =>
          rcases v with ⟨ia, cids, il⟩
          rcases hA : processAttachments s3 (req.attachmentKeys.getD []) with ⟨t2, o2⟩
          cases o2 with
          | none =>
              rw [sendEmailRoute_attFail cfgFrom s3 sendOk logOk now req t1 t2 ia cids il hv hE hA] at h
              simp [failOutcome] at h
          | some w =>
              rcases w with ⟨aa, al⟩
              cases sendOk with
              | false =>
                  rw [sendEmailRoute_sendFail cfgFrom s3 logOk now req t1 t2 ia aa cids il al hv hE hA] at h
                  simp [failOutcome] at h
              | true =>
                  cases logOk with
                  | false =>
                      rw [sendEmailRoute_logFail cfgFrom s3 now req t1 t2 ia aa cids il al hv hE hA] at h
                      simp [failOutcome] at h
                  | true =>
                      exact ⟨rfl, rfl, rfl, t1, ia, cids, il, t2, aa, al, rfl, rfl,
                        sendEmailRoute_success cfgFrom s3 now req t1 t2 ia aa cids il al hv hE hA⟩

/-! ## Claims -/

/-- Claim C1, counterexample: the original claim states that for a
successful `/send-email` request with `useHtmlTemplate = false` the `body`
field of the created EmailLogRecord equals the submitted body with all
`<...>` substrings removed.  On the request with body `"<b>x</b>"` the
request succeeds, yet the persisted `body` field is `"<b>x</b>"` verbatim,
while the stripped form is `"x"` — the source never reassigns
`plainTextContent` in the plain-text branch, so the log keeps the raw
body. -/
theorem claim_C1_counterexample :
    plainOut.status = 200 ∧
    (plainOut.logCreated.map (fun r => r.body)) = some "<b>x</b>" ∧
    stripTagsStr "<b>x</b>" = "x" ∧
    ("<b>x</b>" : String) ≠ "x" := by
  refine ⟨rfl, rfl, rfl, by decide⟩

/-- Claim C1 (amended): for every `/send-email` request with
`useHtmlTemplate = false` that succeeds, the `body` field of the created
EmailLogRecord is the submitted body string verbatim (no stripping), the
`htmlBody` field and the HTML part of the delivered message are also the
body verbatim, and it is the plain-text part of the delivered message
that equals the submitted body with all `<...>` substrings removed. -/
theorem claim_C1 (cfgFrom : String) (s3 : S3Store) (sendOk logOk : Bool)
    (now : Nat) (req : SendEmailRequest) (bodyStr : String)
    (hb : req.body = some bodyStr)
    (hfalse : req.useHtmlTemplate = some false)
    (h200 : (sendEmailRoute cfgFrom s3 sendOk logOk now req).status = 200) :
    ∃ logRec msg,
      (sendEmailRoute cfgFrom s3 sendOk logOk now req).logCreated = some logRec ∧
      (sendEmailRoute cfgFrom s3 sendOk logOk now req).gatewayCalled = some msg ∧
      logRec.body = bodyStr ∧
      logRec.htmlBody = bodyStr ∧
      msg.html = bodyStr ∧
      msg.text = stripTagsStr bodyStr := by
  obtain ⟨hv, hs, hl, t1, ia, cids, il, t2, aa, al, hE, hA, hroute⟩ :=
    sendEmailRoute_success_shape cfgFrom s3 sendOk logOk now req h200
  rw [hroute]
  refine ⟨_, _, rfl, rfl, ?_, ?_, ?_, ?_⟩
  · simp [builtLog, hb]
  · simp [builtLog, builtMsg, hfalse, hb]
  · simp [builtMsg, hfalse, hb]
  · simp [builtMsg, hfalse, hb]

/-- Claim C1, witness: the amended theorem applied to the concrete
plain-text request `plainReq`. -/
theorem claim_C1_witness :
    ∃ logRec msg,
      (sendEmailRoute "noreply@example.com" s3Empty true true 0 plainReq).logCreated = some logRec ∧
      (sendEmailRoute "noreply@example.com" s3Empty true true 0 plainReq).gatewayCalled = some msg ∧
      logRec.body = "<b>x</b>" ∧
      logRec.htmlBody = "<b>x</b>" ∧
      msg.html = "<b>x</b>" ∧
      msg.text = stripTagsStr "<b>x</b>" :=
  claim_C1 "noreply@example.com" s3Empty true true 0 plainReq "<b>x</b>" rfl rfl rfl

/-- Claim C2, counterexample: the original claim states that
`GET /emails?search=q` returns exactly the records containing `q` as a
case-insensitive literal substring of `to`, `subject` or `body`.  The
query string is in fact passed to the document store as a regular
expression: for `q = "."` the route returns the stored record
`dotFreeRec` although none of its three fields contains the literal
character `.`. -/
theorem claim_C2_counterexample :
    emailsRoute [dotFreeRec] (some ".") = [dotFreeRec] ∧
    containsCI dotFreeRec.«to» "." = false ∧
    containsCI dotFreeRec.subject "." = false ∧
    containsCI dotFreeRec.body "." = false := by
  refine ⟨rfl, rfl, rfl, rfl⟩

/-- Claim C2 (amended): for every query string `q` made of characters that
are not regex metacharacters — on such queries the regex sent to the
store matches literally — `GET /emails?search=q` returns exactly the
stored records whose `to`, `subject` or `body` contains `q` as a
case-insensitive literal substring (logical OR across the three fields),
sorted by timestamp descending; with no query parameter it returns all
records in the same newest-first order.  (For `q` containing
metacharacters the match is regex-based, not literal.) -/
theorem claim_C2 (db : List EmailLogRecord) (q : String)
    (hq : ∀ c ∈ q.data, c ∉ regexMetachars) :
    (∀ r, r ∈ emailsRoute db (some q) ↔
      r ∈ db ∧
        (containsCI r.«to» q || containsCI r.subject q || containsCI r.body q) = true) ∧
    List.Sorted tsGe (emailsRoute db (some q)) ∧
    (∀ r, r ∈ emailsRoute db none ↔ r ∈ db) ∧
    List.Sorted tsGe (emailsRoute db none) := by
  refine ⟨?_, ?_, ?_, ?_⟩
  · intro r
    unfold emailsRoute
    dsimp only
    by_cases he : q.isEmpty
    · have hq0 : q = "" := (String.isEmpty_iff q).mp he
      subst hq0
      rw [if_pos he]
      rw [(List.perm_insertionSort tsGe db).mem_iff]
      have h1 : containsCI r.«to» "" = true := containsSeq_nil_need _
      simp [h1]
    · rw [if_neg he]
      rw [(List.perm_insertionSort tsGe (db.filter (fieldMatches q))).mem_iff,
        List.mem_filter]
      unfold fieldMatches
      rw [regexFindI_eq_containsCI q r.«to» hq,
        regexFindI_eq_containsCI q r.subject hq,
        regexFindI_eq_containsCI q r.body hq]
  · exact List.sorted_insertionSort tsGe _
  · intro r
    unfold emailsRoute
    rw [(List.perm_insertionSort tsGe db).mem_iff]
  · exact List.sorted_insertionSort tsGe _

/-- Claim C2, witness: the amended theorem applied to a one-record store
and the metacharacter-free query `"GREET"`, which matches `searchRec`
case-insensitively in its `subject` field. -/
theorem claim_C2_witness :
    (searchRec ∈ emailsRoute [searchRec] (some "GREET") ↔
      searchRec ∈ [searchRec] ∧
        (containsCI searchRec.«to» "GREET" || containsCI searchRec.subject "GREET" ||
          containsCI searchRec.body "GREET") = true) ∧
    List.Sorted tsGe (emailsRoute [searchRec] (some "GREET")) :=
  ⟨(claim_C2 [searchRec] "GREET" (by decide)).1 searchRec,
   (claim_C2 [searchRec] "GREET" (by decide)).2.1⟩

/-- Claim C3, counterexample: the original claim states that the HTML of
the simple example send contains the substring
`<div class="content">Hello</div>`.  The template interpolates the body on
its own line, so newline and indentation separate `<div class="content">`
from `Hello`, and the claimed contiguous substring does not occur. -/
theorem claim_C3_counterexample :
    simpleOut.status = 200 ∧
    (simpleOut.gatewayCalled.map
      (fun m => containsStr m.html "<div class=\"content\">Hello</div>")) = some false := by
  refine ⟨rfl, rfl⟩

/-- Claim C3 (amended): a `POST /send-email` request with `to="a@b.com"`,
`subject="Hi"`, `body="Hello"` and no attachment or embedded-image keys
produces a sent message whose HTML contains `<h1>Hi</h1>` and contains the
body inside the content div as
`<div class="content">` + newline + indentation + `Hello` + newline +
indentation + `</div>` (the template puts the interpolated body on its own
line), creates a log record with empty `embeddedImages` and `attachments`
arrays, and returns 200 with `message = "Email sent successfully"` and
`htmlGenerated = true`. -/
theorem claim_C3 :
    simpleOut.status = 200 ∧
    simpleOut.message = "Email sent successfully" ∧
    simpleOut.htmlGenerated = some true ∧
    (simpleOut.gatewayCalled.map
      (fun m => containsStr m.html "<h1>Hi</h1>")) = some true ∧
    (simpleOut.gatewayCalled.map
      (fun m => containsStr m.html
        "<div class=\"content\">\n        Hello\n      </div>")) = some true ∧
    (simpleOut.logCreated.map (fun r => r.embeddedImages)) = some [] ∧
    (simpleOut.logCreated.map (fun r => r.attachments)) = some [] := by
  refine ⟨rfl, rfl, rfl, rfl, rfl, rfl, rfl⟩

/-- Claim C4, counterexample: the original claim states that each
content-id appears exactly once in the rendered HTML as `cid:image-k`.
With ten embedded images the substring `cid:image-1` occurs twice — once
in the block of `image-1` and once inside `cid:image-10` — although the
content-ids themselves are correctly `image-1 .. image-10`. -/
theorem claim_C4_counterexample :
    tenImgOut.status = 200 ∧
    (tenImgOut.logCreated.map (fun r => r.embeddedImages.map (fun e => e.cid))) =
      some ["image-1", "image-2", "image-3", "image-4", "image-5",
            "image-6", "image-7", "image-8", "image-9", "image-10"] ∧
    tenImgOut.gatewayCalled.isSome = true ∧
    countOccStr (sentHtml tenImgOut) "cid:image-1" = 2 := by
  refine ⟨rfl, rfl, rfl, countOccStr_eval _ _ 2 rfl⟩

/-- Claim C4 (amended): for every successful `/send-email` request using
the HTML template with a list of N embedded-image keys, the generated
content-ids are exactly `image-1` through `image-N` assigned in request
order, each content-id `image-k` occurs exactly once in the list of
generated content-ids, and the rendered HTML contains the (unique) image
block referencing `cid:image-k` for each k.  (Raw substring counting of
`cid:image-k` can exceed one for N ≥ 10, because `cid:image-1` occurs
inside `cid:image-10`.) -/
theorem claim_C4 (cfgFrom : String) (s3 : S3Store) (sendOk logOk : Bool)
    (now : Nat) (req : SendEmailRequest) (keys : List String)
    (hkeys : req.embeddedImageKeys = some keys)
    (hut : req.useHtmlTemplate.getD true = true)
    (h200 : (sendEmailRoute cfgFrom s3 sendOk logOk now req).status = 200) :
    ∃ logRec msg,
      (sendEmailRoute cfgFrom s3 sendOk logOk now req).logCreated = some logRec ∧
      (sendEmailRoute cfgFrom s3 sendOk logOk now req).gatewayCalled = some msg ∧
      logRec.embeddedImages.map (fun e => e.cid) =
        (List.range keys.length).map (fun i => "image-" ++ natToDec (i + 1)) ∧
      ∀ k, 1 ≤ k → k ≤ keys.length →
        (logRec.embeddedImages.map (fun e => e.cid)).count
            ("image-" ++ natToDec k) = 1 ∧
        containsStr msg.html (imageBlock ("image-" ++ natToDec k)) = true := by
  obtain ⟨hv, hs, hl, t1, ia, cids, il, t2, aa, al, hE, hA, hroute⟩ :=
    sendEmailRoute_success_shape cfgFrom s3 sendOk logOk now req h200
  rw [hkeys] at hE
  simp only [Option.getD_some] at hE
  obtain ⟨hcids, hil⟩ := processEmbeddedFrom_cids s3 keys 0 t1 ia cids il hE
  have hcids2 : cids =
      (List.range keys.length).map (fun i => "image-" ++ natToDec (i + 1)) := by
    rw [hcids]
    apply List.map_congr_left
    intro j _
    norm_num
  rw [hroute]
  refine ⟨_, _, rfl, rfl, ?_, ?_⟩
  · show il.map (fun e => e.cid) = _
    rw [hil, hcids2]
  · intro k h1 hk
    constructor
    · show (il.map (fun e => e.cid)).count ("image-" ++ natToDec k) = 1
      rw [hil, hcids2]
      have hinj : Function.Injective (fun i : Nat => "image-" ++ natToDec (i + 1)) := by
        intro a b hab
        have := image_cid_inj (a + 1) (b + 1) hab
        omega
      have hnodup :
          ((List.range keys.length).map (fun i => "image-" ++ natToDec (i + 1))).Nodup :=
        (List.nodup_range keys.length).map hinj
      have hmem : ("image-" ++ natToDec k) ∈
          (List.range keys.length).map (fun i => "image-" ++ natToDec (i + 1)) := by
        apply List.mem_map.mpr
        refine ⟨k - 1, List.mem_range.mpr (by omega), ?_⟩
        rw [show k - 1 + 1 = k from by omega]
      exact List.count_eq_one_of_mem hnodup hmem
    · show containsStr (builtMsg cfgFrom req cids ia aa).html _ = true
      have hhtml : (builtMsg cfgFrom req cids ia aa).html =
          generateHTMLEmail (req.subject.getD "") (req.body.getD "") cids := by
        simp [builtMsg, hut]
      rw [hhtml]
      apply generateHTMLEmail_contains_block
      rw [hcids2]
      apply List.mem_map.mpr
      exact ⟨k - 1, List.mem_range.mpr (by omega), by rw [show k - 1 + 1 = k from by omega]⟩

/-- Claim C4, witness: the amended theorem applied to the concrete request
`twoImgReq` with keys `["a.png", "b.png"]`, instantiated at k = 1. -/
theorem claim_C4_witness :
    ∃ logRec msg,
      (sendEmailRoute "noreply@example.com" s3All true true 0 twoImgReq).logCreated = some logRec ∧
      (sendEmailRoute "noreply@example.com" s3All true true 0 twoImgReq).gatewayCalled = some msg ∧
      logRec.embeddedImages.map (fun e => e.cid) =
        (List.range (["a.png", "b.png"] : List String).length).map
          (fun i => "image-" ++ natToDec (i + 1)) ∧
      ((logRec.embeddedImages.map (fun e => e.cid)).count ("image-" ++ natToDec 1) = 1 ∧
        containsStr msg.html (imageBlock ("image-" ++ natToDec 1)) = true) := by
  obtain ⟨lr, m, h1, h2, h3, h4⟩ :=
    claim_C4 "noreply@example.com" s3All true true 0 twoImgReq ["a.png", "b.png"] rfl rfl rfl
  exact ⟨lr, m, h1, h2, h3, h4 1 (by decide) (by decide)⟩

/-- Claim C5: if the object fetch fails for any key in `attachmentKeys` or
`embeddedImageKeys` of a `/send-email` request (that passes field
validation), the route returns 500 and neither the delivery gateway nor
the log store is invoked. -/
theorem claim_C5 (cfgFrom : String) (s3 : S3Store) (sendOk logOk : Bool)
    (now : Nat) (req : SendEmailRequest)
    (hv : (falsyStr req.«to» || falsyStr req.subject || falsyStr req.body) = false)
    (hfail : ∃ k ∈ req.embeddedImageKeys.getD [] ++ req.attachmentKeys.getD [],
      s3 k = none) :
    (sendEmailRoute cfgFrom s3 sendOk logOk now req).status = 500 ∧
    (sendEmailRoute cfgFrom s3 sendOk logOk now req).gatewayCalled = none ∧
    (sendEmailRoute cfgFrom s3 sendOk logOk now req).logCallMade = false ∧
    (sendEmailRoute cfgFrom s3 sendOk logOk now req).logCreated = none := by
  rcases hfail with ⟨k, hk, hnone⟩
  rcases hE : processEmbeddedFrom s3 0 (req.embeddedImageKeys.getD []) with ⟨t1, o1⟩
  cases o1 with
  | none =>
      rw [sendEmailRoute_embFail cfgFrom s3 sendOk logOk now req t1 hv hE]
      exact ⟨rfl, rfl, rfl, rfl⟩
  | some v =>
      rcases v with ⟨ia, cids, il⟩
      have hkatt : k ∈ req.attachmentKeys.getD [] := by
        rcases List.mem_append.mp hk with h1 | h2
        · exfalso
          have hcontra :=
            processEmbeddedFrom_none s3 (req.embeddedImageKeys.getD []) 0 ⟨k, h1, hnone⟩
          rw [hE] at hcontra
          simp at hcontra
        · exact h2
      have hattnone :=
        processAttachments_none s3 (req.attachmentKeys.getD []) ⟨k, hkatt, hnone⟩
      rcases hA : processAttachments s3 (req.attachmentKeys.getD []) with ⟨t2, o2⟩
      rw [hA] at hattnone
      simp only at hattnone
      subst hattnone
      rw [sendEmailRoute_attFail cfgFrom s3 sendOk logOk now req t1 t2 ia cids il hv hE hA]
      exact ⟨rfl, rfl, rfl, rfl⟩

/-- Claim C5, witness: a valid request with one embedded-image key over a
store on which every fetch fails. -/
theorem claim_C5_witness :
    (sendEmailRoute "noreply@example.com" s3Empty true true 0
      { «to» := some "a@b.com", subject := some "Hi", body := some "Hello",
        attachmentKeys := none, embeddedImageKeys := some ["img.png"],
        useHtmlTemplate := none }).status = 500 ∧
    (sendEmailRoute "noreply@example.com" s3Empty true true 0
      { «to» := some "a@b.com", subject := some "Hi", body := some "Hello",
        attachmentKeys := none, embeddedImageKeys := some ["img.png"],
        useHtmlTemplate := none }).gatewayCalled = none ∧
    (sendEmailRoute "noreply@example.com" s3Empty true true 0
      { «to» := some "a@b.com", subject := some "Hi", body := some "Hello",
        attachmentKeys := none, embeddedImageKeys := some ["img.png"],
        useHtmlTemplate := none }).logCallMade = false ∧
    (sendEmailRoute "noreply@example.com" s3Empty true true 0
      { «to» := some "a@b.com", subject := some "Hi", body := some "Hello",
        attachmentKeys := none, embeddedImageKeys := some ["img.png"],
        useHtmlTemplate := none }).logCreated = none :=
  claim_C5 "noreply@example.com" s3Empty true true 0
    { «to» := some "a@b.com", subject := some "Hi", body := some "Hello",
      attachmentKeys := none, embeddedImageKeys := some ["img.png"],
      useHtmlTemplate := none }
    rfl ⟨"img.png", by decide, rfl⟩

/-- Claim C6: for every `/send-email` request (passing validation, with
all fetches succeeding) in which the delivery call succeeds but the
subsequent log write fails, the caller receives a 500 response even
though the email was actually delivered. -/
theorem claim_C6 (cfgFrom : String) (s3 : S3Store) (now : Nat)
    (req : SendEmailRequest)
    (hv : (falsyStr req.«to» || falsyStr req.subject || falsyStr req.body) = false)
    (hall : ∀ k ∈ req.embeddedImageKeys.getD [] ++ req.attachmentKeys.getD [],
      (s3 k).isSome = true) :
    (sendEmailRoute cfgFrom s3 true false now req).status = 500 ∧
    (sendEmailRoute cfgFrom s3 true false now req).delivered = true ∧
    (sendEmailRoute cfgFrom s3 true false now req).gatewayCalled.isSome = true ∧
    (sendEmailRoute cfgFrom s3 true false now req).logCallMade = true ∧
    (sendEmailRoute cfgFrom s3 true false now req).logCreated = none := by
  have hemb : ∀ k ∈ req.embeddedImageKeys.getD [], (s3 k).isSome = true :=
    fun k hk => hall k (List.mem_append_left _ hk)
  have hatt : ∀ k ∈ req.attachmentKeys.getD [], (s3 k).isSome = true :=
    fun k hk => hall k (List.mem_append_right _ hk)
  have h1 := processEmbeddedFrom_some s3 (req.embeddedImageKeys.getD []) 0 hemb
  rcases hE : processEmbeddedFrom s3 0 (req.embeddedImageKeys.getD []) with ⟨t1, o1⟩
  rw [hE] at h1
  simp only [Option.isSome_iff_exists] at h1
  rcases h1 with ⟨v, hv1⟩
  have hv2 : o1 = some v := hv1
  subst hv2
  rcases v with ⟨ia, cids, il⟩
  have h2 := processAttachments_some s3 (req.attachmentKeys.getD []) hatt
  rcases hA : processAttachments s3 (req.attachmentKeys.getD []) with ⟨t2, o2⟩
  rw [hA] at h2
  simp only [Option.isSome_iff_exists] at h2
  rcases h2 with ⟨w, hw⟩
  have hw2 : o2 = some w := hw
  subst hw2
  rcases w with ⟨aa, al⟩
  rw [sendEmailRoute_logFail cfgFrom s3 now req t1 t2 ia aa cids il al hv hE hA]
  exact ⟨rfl, rfl, rfl, rfl, rfl⟩

/-- Claim C6, witness: `simpleReq` over a store on which every fetch
succeeds, with delivery succeeding and logging failing. -/
theorem claim_C6_witness :
    (sendEmailRoute "noreply@example.com" s3All true false 0 simpleReq).status = 500 ∧
    (sendEmailRoute "noreply@example.com" s3All true false 0 simpleReq).delivered = true ∧
    (sendEmailRoute "noreply@example.com" s3All true false 0 simpleReq).gatewayCalled.isSome = true ∧
    (sendEmailRoute "noreply@example.com" s3All true false 0 simpleReq).logCallMade = true ∧
    (sendEmailRoute "noreply@example.com" s3All true false 0 simpleReq).logCreated = none :=
  claim_C6 "noreply@example.com" s3All 0 simpleReq rfl
    (fun k hk => by simp [s3All])

/-- Claim C7: a `/send-email` request in which `to`, `subject` or `body`
is absent returns 400 with no storage fetch, no delivery call and no
log-store write. -/
theorem claim_C7 (cfgFrom : String) (s3 : S3Store) (sendOk logOk : Bool)
    (now : Nat) (req : SendEmailRequest)
    (habs : req.«to» = none ∨ req.subject = none ∨ req.body = none) :
    (sendEmailRoute cfgFrom s3 sendOk logOk now req).status = 400 ∧
    (sendEmailRoute cfgFrom s3 sendOk logOk now req).fetched = [] ∧
    (sendEmailRoute cfgFrom s3 sendOk logOk now req).gatewayCalled = none ∧
    (sendEmailRoute cfgFrom s3 sendOk logOk now req).delivered = false ∧
    (sendEmailRoute cfgFrom s3 sendOk logOk now req).logCallMade = false ∧
    (sendEmailRoute cfgFrom s3 sendOk logOk now req).logCreated = none := by
  have hv : (falsyStr req.«to» || falsyStr req.subject || falsyStr req.body) = true := by
    rcases habs with h | h | h <;> simp [h, falsyStr]
  rw [sendEmailRoute_badReq cfgFrom s3 sendOk logOk now req hv]
  exact ⟨rfl, rfl, rfl, rfl, rfl, rfl⟩

/-- Claim C7, witness: a request missing `subject`. -/
theorem claim_C7_witness :
    (sendEmailRoute "noreply@example.com" s3All true true 0
      { «to» := some "a@b.com", subject := none, body := some "Hello",
        attachmentKeys := none, embeddedImageKeys := none,
        useHtmlTemplate := none }).status = 400 ∧
    (sendEmailRoute "noreply@example.com" s3All true true 0
      { «to» := some "a@b.com", subject := none, body := some "Hello",
        attachmentKeys := none, embeddedImageKeys := none,
        useHtmlTemplate := none }).fetched = [] ∧
    (sendEmailRoute "noreply@example.com" s3All true true 0
      { «to» := some "a@b.com", subject := none, body := some "Hello",
        attachmentKeys := none, embeddedImageKeys := none,
        useHtmlTemplate := none }).gatewayCalled = none ∧
    (sendEmailRoute "noreply@example.com" s3All true true 0
      { «to» := some "a@b.com", subject := none, body := some "Hello",
        attachmentKeys := none, embeddedImageKeys := none,
        useHtmlTemplate := none }).delivered = false ∧
    (sendEmailRoute "noreply@example.com" s3All true true 0
      { «to» := some "a@b.com", subject := none, body := some "Hello",
        attachmentKeys := none, embeddedImageKeys := none,
        useHtmlTemplate := none }).logCallMade = false ∧
    (sendEmailRoute "noreply@example.com" s3All true true 0
      { «to» := some "a@b.com", subject := none, body := some "Hello",
        attachmentKeys := none, embeddedImageKeys := none,
        useHtmlTemplate := none }).logCreated = none :=
  claim_C7 "noreply@example.com" s3All true true 0
    { «to» := some "a@b.com", subject := none, body := some "Hello",
      attachmentKeys := none, embeddedImageKeys := none,
      useHtmlTemplate := none }
    (Or.inr (Or.inl rfl))

/-- Claim C8: `POST /preview-email` with `embeddedImageCount = 2` (and
the example subject `"Hi"` and body `"Hello"`) returns 200 with an HTML
document containing `cid:preview-image-1` and `cid:preview-image-2` and
no other `cid:` references: the substring `cid:` occurs exactly twice. -/
theorem claim_C8 :
    previewTwoOut.status = 200 ∧
    previewTwoOut.html.isSome = true ∧
    containsStr (previewTwoOut.html.getD "") "cid:preview-image-1" = true ∧
    containsStr (previewTwoOut.html.getD "") "cid:preview-image-2" = true ∧
    countOccStr (previewTwoOut.html.getD "") "cid:" = 2 := by
  refine ⟨rfl, rfl, rfl, rfl, countOccStr_eval _ _ 2 rfl⟩

/-- Claim C9: the HTML renderer is a pure, deterministic function — two
calls with identical subject, body and inline-image-id arguments yield
byte-identical output strings.  (In this embedding `generateHTMLEmail` is
a pure function of its three arguments: the source reads no ambient
state, only its parameters and string literals.) -/
theorem claim_C9 (s₁ s₂ b₁ b₂ : String) (ids₁ ids₂ : List String)
    (hs : s₁ = s₂) (hb : b₁ = b₂) (hi : ids₁ = ids₂) :
    generateHTMLEmail s₁ b₁ ids₁ = generateHTMLEmail s₂ b₂ ids₂ := by
  rw [hs, hb, hi]

/-- Claim C9, witness: two renders of identical concrete arguments. -/
theorem claim_C9_witness :
    generateHTMLEmail "Hi" "Hello" ["image-1"] =
      generateHTMLEmail "Hi" "Hello" ["image-1"] :=
  claim_C9 "Hi" "Hi" "Hello" "Hello" ["image-1"] ["image-1"] rfl rfl rfl

/-- Claim C10: a required field present but equal to the empty string is
treated as missing: `/send-email` returns its 400 outcome (no fetch, no
delivery, no log write) when `to`, `subject` or `body` is `""`, and
`/preview-email` returns 400 with no rendered HTML when `subject` or
`body` is `""`. -/
theorem claim_C10 (cfgFrom : String) (s3 : S3Store) (sendOk logOk : Bool)
    (now : Nat) (sreq : SendEmailRequest) (preq : PreviewRequest) :
    ((sreq.«to» = some "" ∨ sreq.subject = some "" ∨ sreq.body = some "") →
      sendEmailRoute cfgFrom s3 sendOk logOk now sreq = badRequestOutcome) ∧
    ((preq.subject = some "" ∨ preq.body = some "") →
      previewEmailRoute preq = { status := 400, html := none }) := by
  constructor
  · intro h
    have hempty : falsyStr (some "") = true := by decide
    have hv : (falsyStr sreq.«to» || falsyStr sreq.subject || falsyStr sreq.body) = true := by
      rcases h with h | h | h <;> simp [h, hempty]
    exact sendEmailRoute_badReq cfgFrom s3 sendOk logOk now sreq hv
  · intro h
    have hempty : falsyStr (some "") = true := by decide
    have hv : (falsyStr preq.subject || falsyStr preq.body) = true := by
      rcases h with h | h <;> simp [h, hempty]
    simp [previewEmailRoute, hv]

/-- Claim C10, witness: an empty `to` on `/send-email` and an empty
`subject` on `/preview-email`. -/
theorem claim_C10_witness :
    sendEmailRoute "noreply@example.com" s3All true true 0
      { «to» := some "", subject := some "Hi", body := some "Hello",
        attachmentKeys := none, embeddedImageKeys := none,
        useHtmlTemplate := none } = badRequestOutcome ∧
    previewEmailRoute
      { subject := some "", body := some "Hello", embeddedImageCount := none } =
      { status := 400, html := none } :=
  ⟨(claim_C10 "noreply@example.com" s3All true true 0
      { «to» := some "", subject := some "Hi", body := some "Hello",
        attachmentKeys := none, embeddedImageKeys := none,
        useHtmlTemplate := none }
      { subject := some "", body := some "Hello", embeddedImageCount := none }).1
      (Or.inl rfl),
   (claim_C10 "noreply@example.com" s3All true true 0
      { «to» := some "", subject := some "Hi", body := some "Hello",
        attachmentKeys := none, embeddedImageKeys := none,
        useHtmlTemplate := none }
      { subject := some "", body := some "Hello", embeddedImageCount := none }).2
      (Or.inl rfl)⟩

end Mailer
